import Mathlib

/-!
Shallow embedding of the CCP2 cultivation-assistant core:
the GeminiService resilience layer (circuit breaker, retry with backoff,
briefing cache, live-frame analysis) and the HardwareService environmental
drift simulator, together with theorems settling the specification claims.

The GeminiService embedding follows `services/geminiService.ts`
(the variant with the briefing cache and `analyzeLiveFrame`); the drift
simulator follows `services/hardwareService.ts`.  Remote transport calls,
wall-clock reads and JSON parsing are modelled as explicit oracles passed
to the functions, so every run of the embedded code is a pure value.
-/

namespace CCP2

/-- A JavaScript error value, reduced to the only field the service
inspects: `message`. -/
structure JsError where
  message : String
deriving Repr, DecidableEq

/-- Contiguous-sublist test on character lists, used to model JS
`String.prototype.includes`. -/
def charsInclude (sub : List Char) : List Char → Bool
  | [] => sub.isEmpty
  | c :: rest => sub.isPrefixOf (c :: rest) || charsInclude sub rest

/-- JS `String.prototype.includes`: substring test used by the retry
logic on `error.message`. -/
def strIncludes (s sub : String) : Bool :=
  charsInclude sub.toList s.toList

/-- `error.message?.includes('429') || error.message?.includes('503')`
from `withRetry`. -/
def isRetryable (e : JsError) : Bool :=
  strIncludes e.message "429" || strIncludes e.message "503"

/-- `consecutiveFailures` / `lastFailureTime` fields of `GeminiService`.
Times are epoch milliseconds. -/
structure CircuitState where
  consecutiveFailures : Nat
  lastFailureTime : Nat
deriving Repr, DecidableEq

/-- `CIRCUIT_BREAKER_THRESHOLD = 5`. -/
def CIRCUIT_BREAKER_THRESHOLD : Nat := 5

/-- `COOLDOWN_MS = 60000`. -/
def COOLDOWN_MS : Nat := 60000

/-- `CACHE_TTL = 5 * 60 * 1000`. -/
def CACHE_TTL : Nat := 5 * 60 * 1000

/-- `GeminiService.checkCircuitBreaker`, with `Date.now()` passed in as
`now`.  On rejection it returns the remaining wait in whole seconds,
`Math.ceil((COOLDOWN_MS - timeSinceLastFailure) / 1000)`; after an
elapsed cooldown it resets `consecutiveFailures` to 0 and lets the call
proceed. -/
def checkCircuitBreaker (cs : CircuitState) (now : Nat) :
    Except Nat CircuitState :=
  if cs.consecutiveFailures ≥ CIRCUIT_BREAKER_THRESHOLD then
    let timeSinceLastFailure := now - cs.lastFailureTime
    if timeSinceLastFailure < COOLDOWN_MS then
      Except.error ((COOLDOWN_MS - timeSinceLastFailure + 999) / 1000)
    else
      Except.ok { cs with consecutiveFailures := 0 }
  else
    Except.ok cs

/-- The two `Date.now()` reads observable inside one level of
`withRetry`: the read in `checkCircuitBreaker` and the read recorded as
`lastFailureTime` when the attempt settles. -/
structure StepClock where
  checkNow : Nat
  resolveNow : Nat
deriving Repr, DecidableEq

/-- How a logical call through `withRetry` can fail: the cooldown error
thrown by `checkCircuitBreaker` (carrying remaining seconds), or a
transport error propagated verbatim. -/
inductive CallError where
  | cooldown (remainingSeconds : Nat)
  | thrown (e : JsError)
deriving Repr, DecidableEq

deriving instance DecidableEq for Except

/-- Observable outcome of one logical call through `withRetry`: its
result, the final circuit state, the final auxiliary state `σ` mutated
by the wrapped function (the briefing cache), the backoff delays awaited
in order, the number of `checkCircuitBreaker` evaluations, and the
number of transport invocations. -/
structure RunResult (σ α : Type) where
  result : Except CallError α
  cs : CircuitState
  st : σ
  delays : List Nat
  checks : Nat
  attempts : Nat
deriving Repr, DecidableEq

/-- The outcome of a failed attempt that will not be retried (the
`throw error` path of `withRetry`): the counter was incremented and
`lastFailureTime` stamped with the attempt's `Date.now()`. -/
def thrownRun (e : JsError) (cs1 : CircuitState) (st' : σ) (t : Nat) :
    RunResult σ α :=
  ⟨Except.error (CallError.thrown e), ⟨cs1.consecutiveFailures + 1, t⟩,
    st', [], 1, 1⟩

/-- `GeminiService.withRetry(fn, retries)`.  `fn i st` is the wrapped
async function at attempt index `i` acting on auxiliary state `st`;
`clock i` supplies the `Date.now()` reads of that attempt.  Mirrors the
source: the circuit breaker is checked at the top of every (recursive)
invocation; a success resets `consecutiveFailures` to 0; every failure
increments the counter and stamps `lastFailureTime`; the `retries > 0 &&
isRetryable` guard is split into the two equations on `retries`; a retry
waits `(4 - retries) * 1000` ms and recurses with `retries - 1`. -/
def withRetry (clock : Nat → StepClock) (fn : Nat → σ → Except JsError α × σ) :
    Nat → Nat → CircuitState → σ → RunResult σ α
  | i, 0, cs, st =>
    match checkCircuitBreaker cs (clock i).checkNow with
    | Except.error remaining =>
        ⟨Except.error (CallError.cooldown remaining), cs, st, [], 1, 0⟩
    | Except.ok cs1 =>
      match fn i st with
      | (Except.ok a, st') =>
          ⟨Except.ok a, { cs1 with consecutiveFailures := 0 }, st', [], 1, 1⟩
      | (Except.error e, st') => thrownRun e cs1 st' (clock i).resolveNow
  | i, r + 1, cs, st =>
    match checkCircuitBreaker cs (clock i).checkNow with
    | Except.error remaining =>
        ⟨Except.error (CallError.cooldown remaining), cs, st, [], 1, 0⟩
    | Except.ok cs1 =>
      match fn i st with
      | (Except.ok a, st') =>
          ⟨Except.ok a, { cs1 with consecutiveFailures := 0 }, st', [], 1, 1⟩
      | (Except.error e, st') =>
        if isRetryable e then
          let rest := withRetry clock fn (i + 1) r
            ⟨cs1.consecutiveFailures + 1, (clock i).resolveNow⟩ st'
          ⟨rest.result, rest.cs, rest.st,
            (4 - (r + 1)) * 1000 :: rest.delays, 1 + rest.checks,
            1 + rest.attempts⟩
        else thrownRun e cs1 st' (clock i).resolveNow

/-- Room status enumeration from the data model. -/
inductive RoomStatus where
  | NOMINAL | WARNING | CRITICAL
deriving Repr, DecidableEq

/-- Briefing status enumeration. -/
inductive BriefStatus where
  | OPTIMAL | ATTENTION | CRITICAL
deriving Repr, DecidableEq

/-- `FacilityBriefing` payload. -/
structure FacilityBriefing where
  status : BriefStatus
  summary : String
  actionItems : List String
deriving Repr, DecidableEq

/-- The slice of `Room` that `generateFacilityBriefing` branches on.
(The name and sensor fields only feed the opaque prompt string.) -/
structure Room where
  id : String
  name : String
  status : RoomStatus
deriving Repr, DecidableEq

/-- `rooms.some(r => r.status === 'CRITICAL')`. -/
def hasCritical (rooms : List Room) : Bool :=
  rooms.any fun r => r.status = RoomStatus.CRITICAL

/-- The single briefing cache slot `{ data, timestamp }`. -/
structure CacheEntry where
  data : FacilityBriefing
  timestamp : Nat
deriving Repr, DecidableEq

/-- What one remote `generateContent` invocation can produce: a rejected
promise carrying an error, or a resolved response whose `text` field may
be absent. -/
inductive RemoteResult where
  | err (e : JsError)
  | response (text : Option String)
deriving Repr, DecidableEq

/-- JS falsiness of `response.text`: absent or the empty string. -/
def textFalsy : Option String → Bool
  | none => true
  | some s => s.isEmpty

/-- The async closure passed to `withRetry` by
`generateFacilityBriefing`, acting on the cache slot: a transport error
rethrows; a falsy `response.text` throws `"Empty response from AI"`; an
unparsable payload throws the parse error; otherwise the parsed briefing
is returned after overwriting the cache slot with it and the current
time. -/
def briefingAttempt (remote : Nat → RemoteResult)
    (parse : String → Except JsError FacilityBriefing)
    (clock : Nat → StepClock) (i : Nat) (cache : Option CacheEntry) :
    Except JsError FacilityBriefing × Option CacheEntry :=
  match remote i with
  | RemoteResult.err e => (Except.error e, cache)
  | RemoteResult.response t =>
    if textFalsy t then (Except.error ⟨"Empty response from AI"⟩, cache)
    else
      match parse (t.getD "") with
      | Except.error e => (Except.error e, cache)
      | Except.ok b => (Except.ok b, some ⟨b, (clock i).resolveNow⟩)

/-- `GeminiService.generateFacilityBriefing(rooms)`.  `now` is the
`Date.now()` read of the cache check; `remote`, `parse` and `clock` are
the oracles of the wrapped attempts.  Serves the cached briefing when
the slot is non-empty, younger than `CACHE_TTL`, and either no room is
CRITICAL or the cached briefing is itself CRITICAL; otherwise runs the
retry-wrapped remote call. -/
def generateFacilityBriefing (rooms : List Room) (now : Nat)
    (clock : Nat → StepClock) (remote : Nat → RemoteResult)
    (parse : String → Except JsError FacilityBriefing)
    (cs : CircuitState) (cache : Option CacheEntry) :
    RunResult (Option CacheEntry) FacilityBriefing :=
  match cache with
  | some entry =>
    if now - entry.timestamp < CACHE_TTL ∧
        (hasCritical rooms = false ∨ entry.data.status = BriefStatus.CRITICAL)
    then ⟨Except.ok entry.data, cs, cache, [], 0, 0⟩
    else withRetry clock (briefingAttempt remote parse clock) 0 3 cs cache
  | none => withRetry clock (briefingAttempt remote parse clock) 0 3 cs cache

/-- One detected object of the AR overlay. -/
structure ArDetectedObject where
  label : String
  confidence : ℚ
deriving Repr, DecidableEq

/-- Overlay status enumeration. -/
inductive ArStatus where
  | SCANNING | LOCKED | ANALYZING
deriving Repr, DecidableEq

/-- `ArOverlayData` payload of `analyzeLiveFrame`. -/
structure ArOverlayData where
  status : ArStatus
  detectedObjects : List ArDetectedObject
  healthEstimate : ℚ
deriving Repr, DecidableEq

/-- The default empty overlay `{ status: 'SCANNING', detectedObjects: [],
healthEstimate: 0 }`. -/
def defaultOverlay : ArOverlayData :=
  ⟨ArStatus.SCANNING, [], 0⟩

/-- `GeminiService.analyzeLiveFrame`.  A single unretried attempt, not
wrapped in `withRetry` and not wrapped in any try/catch: a rejected
transport call propagates its error, a falsy `response.text` yields the
default overlay, and an (abstract) `JSON.parse` is applied to a truthy
payload, propagating its error when parsing throws. -/
def analyzeLiveFrame (remote : RemoteResult)
    (parse : String → Except JsError ArOverlayData) :
    Except JsError ArOverlayData :=
  match remote with
  | RemoteResult.err e => Except.error e
  | RemoteResult.response t =>
    if textFalsy t then Except.ok defaultOverlay
    else parse (t.getD "")

/-! ## HardwareService drift simulator

`services/hardwareService.ts` computes with JS doubles; the embedding
uses exact reals, with `Number(x.toFixed(d))` modelled as rounding to
`d` decimals (nearest, ties toward `+∞`, the tie rule of `toFixed`) and
`Math.random()` modelled as an arbitrary real in `[0, 1)` passed in
explicitly (one per `Math.random()` call, in source order). -/

/-- `UPDATE_INTERVAL = 3000`. -/
def UPDATE_INTERVAL : Nat := 3000

/-- `FLUX_TEMP = 0.5`. -/
noncomputable def FLUX_TEMP : ℝ := 0.5

/-- `FLUX_HUMIDITY = 1.5`. -/
noncomputable def FLUX_HUMIDITY : ℝ := 1.5

/-- `Number(x.toFixed(1))`: round to one decimal. -/
noncomputable def round1 (x : ℝ) : ℝ := (round (10 * x) : ℤ) / 10

/-- `Number(x.toFixed(2))`: round to two decimals. -/
noncomputable def round2 (x : ℝ) : ℝ := (round (100 * x) : ℤ) / 100

/-- Saturation vapor pressure,
`svp = 0.61078 * Math.exp((17.27 * temp) / (temp + 237.3))`. -/
noncomputable def svp (temp : ℝ) : ℝ :=
  0.61078 * Real.exp (17.27 * temp / (temp + 237.3))

/-- The `vpd` field emitted for new temperature `t` and new humidity
`h`: `Math.max(0, Number((svp * (1 - humidity / 100)).toFixed(2)))`. -/
noncomputable def vpdOut (t h : ℝ) : ℝ :=
  max 0 (round2 (svp t * (1 - h / 100)))

/-- `SensorReading` as produced by the simulator. -/
structure SensorReading where
  temp : ℝ
  humidity : ℝ
  vpd : ℝ
  co2 : ℤ
  timestamp : Nat

/-- `HardwareService.simulateDrift(current)`.  `r1`, `r2`, `r3` are the
three `Math.random()` draws (temperature change, humidity change, CO₂
step, in source order) and `now` is `Date.now()`. -/
noncomputable def simulateDrift (current : SensorReading)
    (r1 r2 r3 : ℝ) (now : Nat) : SensorReading :=
  let tempChange := (r1 - 0.5) * FLUX_TEMP
  let humidityChange := (r2 - 0.5) * FLUX_HUMIDITY
  let temp := round1 (current.temp + tempChange)
  let humidity := round1 (current.humidity + humidityChange)
  { temp := temp
    humidity := humidity
    vpd := vpdOut temp humidity
    co2 := current.co2 + (⌊r3 * 10⌋ - 5)
    timestamp := now }

/-! ## Observables and concrete fixtures used by the theorems -/

/-- 1 when a run ended rejected by the circuit breaker, else 0: the
extra `checkCircuitBreaker` evaluation such a run performed. -/
def cooldownFlag : Except CallError α → Nat
  | Except.error (CallError.cooldown _) => 1
  | _ => 0

/-- A clock whose every `Date.now()` read returns `t`. -/
def clockAt (t : Nat) : Nat → StepClock := fun _ => ⟨t, t⟩

/-- A transport that always rejects with the given message. -/
def alwaysErr (msg : String) : Nat → Unit → Except JsError Unit × Unit :=
  fun _ _ => (Except.error ⟨msg⟩, ())

/-- A transport that always resolves. -/
def alwaysOk : Nat → Unit → Except JsError Unit × Unit :=
  fun _ _ => (Except.ok (), ())

/-- Fixture: a room in NOMINAL status. -/
def roomNominal : Room := ⟨"r1", "Flower Tent A", RoomStatus.NOMINAL⟩

/-- Fixture: a room in CRITICAL status. -/
def roomCritical : Room := ⟨"r2", "Veg Tent B", RoomStatus.CRITICAL⟩

/-- Fixture: an OPTIMAL briefing cached at time 0. -/
def entryOptimal : CacheEntry :=
  ⟨⟨BriefStatus.OPTIMAL, "all good", []⟩, 0⟩

/-- Fixture: the briefing a fresh remote call parses to. -/
def briefingFresh : FacilityBriefing :=
  ⟨BriefStatus.ATTENTION, "warm", ["vent"]⟩

/-- Fixture: a remote endpoint answering the payload "fresh". -/
def remoteFresh : Nat → RemoteResult :=
  fun _ => RemoteResult.response (some "fresh")

/-- Fixture: a parser accepting exactly the payload "fresh". -/
def parseFresh : String → Except JsError FacilityBriefing :=
  fun s => if s = "fresh" then Except.ok briefingFresh
    else Except.error ⟨"SyntaxError"⟩

/-- Fixture: the seeded reading of mock room r1
(`temp 24.5, humidity 45, vpd 1.2, co2 1200`). -/
noncomputable def reading0 : SensorReading := ⟨24.5, 45, 1.2, 1200, 0⟩

/-! ## Step lemmas for `withRetry` -/

section StepLemmas

variable {σ α : Type} (clock : Nat → StepClock)
variable (fn : Nat → σ → Except JsError α × σ)

lemma checkCircuitBreaker_closed (cs : CircuitState) (now : Nat)
    (h : cs.consecutiveFailures < CIRCUIT_BREAKER_THRESHOLD) :
    checkCircuitBreaker cs now = Except.ok cs := by
  simp [checkCircuitBreaker, Nat.not_le.mpr h]

lemma withRetry_cooldown {i retries : Nat} {cs : CircuitState} {st : σ} {r : Nat}
    (h : checkCircuitBreaker cs (clock i).checkNow = Except.error r) :
    withRetry clock fn i retries cs st =
      ⟨Except.error (CallError.cooldown r), cs, st, [], 1, 0⟩ := by
  cases retries <;> simp only [withRetry, h]

lemma withRetry_success {i retries : Nat} {cs cs1 : CircuitState} {st st' : σ} {a : α}
    (h : checkCircuitBreaker cs (clock i).checkNow = Except.ok cs1)
    (hfn : fn i st = (Except.ok a, st')) :
    withRetry clock fn i retries cs st =
      ⟨Except.ok a, { cs1 with consecutiveFailures := 0 }, st', [], 1, 1⟩ := by
  cases retries <;> simp only [withRetry, h, hfn]

lemma withRetry_noretry {i retries : Nat} {cs cs1 : CircuitState} {st st' : σ}
    {e : JsError}
    (h : checkCircuitBreaker cs (clock i).checkNow = Except.ok cs1)
    (hfn : fn i st = (Except.error e, st'))
    (he : isRetryable e = false) :
    withRetry clock fn i retries cs st =
      thrownRun e cs1 st' (clock i).resolveNow := by
  cases retries <;> simp only [withRetry, h, hfn, he, Bool.false_eq_true,
    if_false]

lemma withRetry_stop {i : Nat} {cs cs1 : CircuitState} {st st' : σ} {e : JsError}
    (h : checkCircuitBreaker cs (clock i).checkNow = Except.ok cs1)
    (hfn : fn i st = (Except.error e, st')) :
    withRetry clock fn i 0 cs st =
      thrownRun e cs1 st' (clock i).resolveNow := by
  simp only [withRetry, h, hfn]

lemma withRetry_retry {i r : Nat} {cs cs1 : CircuitState} {st st' : σ} {e : JsError}
    (h : checkCircuitBreaker cs (clock i).checkNow = Except.ok cs1)
    (hfn : fn i st = (Except.error e, st'))
    (he : isRetryable e = true) :
    withRetry clock fn i (r + 1) cs st =
      let rest := withRetry clock fn (i + 1) r
        ⟨cs1.consecutiveFailures + 1, (clock i).resolveNow⟩ st'
      ⟨rest.result, rest.cs, rest.st, (4 - (r + 1)) * 1000 :: rest.delays,
        1 + rest.checks, 1 + rest.attempts⟩ := by
  simp only [withRetry, h, hfn, he, if_true]

end StepLemmas

/-! ## Run invariants of `withRetry`, by induction on the retry budget -/

section Invariants

variable {σ α : Type} (clock : Nat → StepClock)
variable (fn : Nat → σ → Except JsError α × σ)

lemma withRetry_checks_eq :
    ∀ (retries i : Nat) (cs : CircuitState) (st : σ),
      (withRetry clock fn i retries cs st).checks =
        (withRetry clock fn i retries cs st).attempts +
          cooldownFlag (withRetry clock fn i retries cs st).result := by
  intro retries
  induction retries with
  | zero =>
    intro i cs st
    rcases h : checkCircuitBreaker cs (clock i).checkNow with r | cs1
    · rw [withRetry_cooldown clock fn h]; rfl
    · rcases hfn : fn i st with ⟨e | a, st'⟩
      · rw [withRetry_stop clock fn h hfn]; rfl
      · rw [withRetry_success clock fn h hfn]; rfl
  | succ r ih =>
    intro i cs st
    rcases h : checkCircuitBreaker cs (clock i).checkNow with rr | cs1
    · rw [withRetry_cooldown clock fn h]; rfl
    · rcases hfn : fn i st with ⟨e | a, st'⟩
      · rcases he : isRetryable e with _ | _
        · rw [withRetry_noretry clock fn h hfn he]; rfl
        · rw [withRetry_retry clock fn h hfn he]
          have hc := ih (i + 1)
            ⟨cs1.consecutiveFailures + 1, (clock i).resolveNow⟩ st'
          show 1 + (withRetry clock fn (i + 1) r
              ⟨cs1.consecutiveFailures + 1, (clock i).resolveNow⟩ st').checks =
            1 + (withRetry clock fn (i + 1) r
              ⟨cs1.consecutiveFailures + 1, (clock i).resolveNow⟩ st').attempts +
            cooldownFlag (withRetry clock fn (i + 1) r
              ⟨cs1.consecutiveFailures + 1, (clock i).resolveNow⟩ st').result
          omega
      · rw [withRetry_success clock fn h hfn]; rfl

lemma withRetry_attempts_le :
    ∀ (retries i : Nat) (cs : CircuitState) (st : σ),
      (withRetry clock fn i retries cs st).attempts ≤ retries + 1 := by
  intro retries
  induction retries with
  | zero =>
    intro i cs st
    rcases h : checkCircuitBreaker cs (clock i).checkNow with r | cs1
    · rw [withRetry_cooldown clock fn h]
      exact Nat.zero_le _
    · rcases hfn : fn i st with ⟨e | a, st'⟩
      · rw [withRetry_stop clock fn h hfn]
        exact Nat.le_refl _
      · rw [withRetry_success clock fn h hfn]
  | succ r ih =>
    intro i cs st
    rcases h : checkCircuitBreaker cs (clock i).checkNow with rr | cs1
    · rw [withRetry_cooldown clock fn h]; exact Nat.zero_le _
    · rcases hfn : fn i st with ⟨e | a, st'⟩
      · rcases he : isRetryable e with _ | _
        · rw [withRetry_noretry clock fn h hfn he]
          show 1 ≤ r + 1 + 1
          omega
        · rw [withRetry_retry clock fn h hfn he]
          have hle := ih (i + 1)
            ⟨cs1.consecutiveFailures + 1, (clock i).resolveNow⟩ st'
          show 1 + (withRetry clock fn (i + 1) r
              ⟨cs1.consecutiveFailures + 1, (clock i).resolveNow⟩
              st').attempts ≤ r + 1 + 1
          omega
      · rw [withRetry_success clock fn h hfn]
        show 1 ≤ r + 1 + 1
        omega

lemma withRetry_success_resets :
    ∀ (retries i : Nat) (cs : CircuitState) (st : σ) (a : α),
      (withRetry clock fn i retries cs st).result = Except.ok a →
        (withRetry clock fn i retries cs st).cs.consecutiveFailures = 0 := by
  intro retries
  induction retries with
  | zero =>
    intro i cs st a hres
    rcases h : checkCircuitBreaker cs (clock i).checkNow with r | cs1
    · rw [withRetry_cooldown clock fn h] at hres ⊢; exact absurd hres (by simp)
    · rcases hfn : fn i st with ⟨e | a', st'⟩
      · rw [withRetry_stop clock fn h hfn] at hres ⊢
        exact absurd hres (by simp [thrownRun])
      · rw [withRetry_success clock fn h hfn]
  | succ r ih =>
    intro i cs st a hres
    rcases h : checkCircuitBreaker cs (clock i).checkNow with rr | cs1
    · rw [withRetry_cooldown clock fn h] at hres ⊢; exact absurd hres (by simp)
    · rcases hfn : fn i st with ⟨e | a', st'⟩
      · rcases he : isRetryable e with _ | _
        · rw [withRetry_noretry clock fn h hfn he] at hres ⊢
          exact absurd hres (by simp [thrownRun])
        · rw [withRetry_retry clock fn h hfn he] at hres ⊢
          exact ih (i + 1) _ st' a hres
      · rw [withRetry_success clock fn h hfn]

lemma withRetry_delays_getD :
    ∀ (retries i : Nat) (cs : CircuitState) (st : σ), retries ≤ 3 →
      ∀ j : Nat, j < (withRetry clock fn i retries cs st).delays.length →
        (withRetry clock fn i retries cs st).delays.getD j 0 =
          (4 - retries + j) * 1000 := by
  intro retries
  induction retries with
  | zero =>
    intro i cs st _ j hj
    exfalso
    rcases h : checkCircuitBreaker cs (clock i).checkNow with r | cs1
    · rw [withRetry_cooldown clock fn h] at hj; simp at hj
    · rcases hfn : fn i st with ⟨e | a, st'⟩
      · rw [withRetry_stop clock fn h hfn] at hj; simp [thrownRun] at hj
      · rw [withRetry_success clock fn h hfn] at hj; simp at hj
  | succ r ih =>
    intro i cs st hr j hj
    rcases h : checkCircuitBreaker cs (clock i).checkNow with rr | cs1
    · rw [withRetry_cooldown clock fn h] at hj; simp at hj
    · rcases hfn : fn i st with ⟨e | a, st'⟩
      · rcases he : isRetryable e with _ | _
        · rw [withRetry_noretry clock fn h hfn he] at hj
          simp [thrownRun] at hj
        · rw [withRetry_retry clock fn h hfn he] at hj ⊢
          rcases j with _ | j'
          · simp
          · have hj' : j' < (withRetry clock fn (i + 1) r
                ⟨cs1.consecutiveFailures + 1, (clock i).resolveNow⟩
                st').delays.length := by
              simpa using hj
            have hrec := ih (i + 1)
              ⟨cs1.consecutiveFailures + 1, (clock i).resolveNow⟩ st'
              (by omega) j' hj'
            have harith : 4 - r + j' = 4 - (r + 1) + (j' + 1) := by omega
            simpa [harith] using hrec
      · rw [withRetry_success clock fn h hfn] at hj; simp at hj

lemma withRetry_retried_retryable (oracle : Nat → Except JsError α) :
    ∀ (retries i : Nat) (cs : CircuitState) (k : Nat),
      k + 1 < (withRetry clock (fun j _ => (oracle j, ())) i retries cs
          ()).attempts →
        ∃ e, oracle (i + k) = Except.error e ∧ isRetryable e = true := by
  intro retries
  induction retries with
  | zero =>
    intro i cs k hk
    exfalso
    rcases h : checkCircuitBreaker cs (clock i).checkNow with r | cs1
    · rw [withRetry_cooldown clock _ h] at hk; simp at hk
    · rcases ho : oracle i with e | a
      · have hfn : (fun j (_ : Unit) => (oracle j, ())) i () =
            ((Except.error e : Except JsError α), ()) := by simp [ho]
        rw [withRetry_stop clock _ h hfn] at hk
        simp [thrownRun] at hk
      · have hfn : (fun j (_ : Unit) => (oracle j, ())) i () =
            ((Except.ok a : Except JsError α), ()) := by simp [ho]
        rw [withRetry_success clock _ h hfn] at hk
        simp at hk
  | succ r ih =>
    intro i cs k hk
    rcases h : checkCircuitBreaker cs (clock i).checkNow with rr | cs1
    · rw [withRetry_cooldown clock _ h] at hk; simp at hk
    · rcases ho : oracle i with e | a
      · have hfn : (fun j (_ : Unit) => (oracle j, ())) i () =
            ((Except.error e : Except JsError α), ()) := by simp [ho]
        rcases he : isRetryable e with _ | _
        · rw [withRetry_noretry clock _ h hfn he] at hk
          simp [thrownRun] at hk
        · rw [withRetry_retry clock _ h hfn he] at hk
          rcases k with _ | k'
          · exact ⟨e, by simpa using ho, he⟩
          · have hk' : k' + 1 < (withRetry clock
                (fun j _ => (oracle j, ())) (i + 1) r
                ⟨cs1.consecutiveFailures + 1, (clock i).resolveNow⟩
                ()).attempts := by
              have : k' + 1 + 1 < 1 + (withRetry clock
                  (fun j _ => (oracle j, ())) (i + 1) r
                  ⟨cs1.consecutiveFailures + 1, (clock i).resolveNow⟩
                  ()).attempts := hk
              omega
            have hrec := ih (i + 1)
              ⟨cs1.consecutiveFailures + 1, (clock i).resolveNow⟩ k' hk'
            have : i + 1 + k' = i + (k' + 1) := by omega
            rwa [this] at hrec
      · have hfn : (fun j (_ : Unit) => (oracle j, ())) i () =
            ((Except.ok a : Except JsError α), ()) := by simp [ho]
        rw [withRetry_success clock _ h hfn] at hk
        simp at hk

lemma withRetry_st_of_error
    (hpres : ∀ (j : Nat) (st0 : σ) (e : JsError) (st1 : σ),
      fn j st0 = (Except.error e, st1) → st1 = st0) :
    ∀ (retries i : Nat) (cs : CircuitState) (st : σ) (err : CallError),
      (withRetry clock fn i retries cs st).result = Except.error err →
        (withRetry clock fn i retries cs st).st = st := by
  intro retries
  induction retries with
  | zero =>
    intro i cs st err hres
    rcases h : checkCircuitBreaker cs (clock i).checkNow with r | cs1
    · rw [withRetry_cooldown clock fn h]
    · rcases hfn : fn i st with ⟨e | a, st'⟩
      · rw [withRetry_stop clock fn h hfn]
        exact hpres i st e st' hfn
      · rw [withRetry_success clock fn h hfn] at hres ⊢
        exact absurd hres (by simp)
  | succ r ih =>
    intro i cs st err hres
    rcases h : checkCircuitBreaker cs (clock i).checkNow with rr | cs1
    · rw [withRetry_cooldown clock fn h]
    · rcases hfn : fn i st with ⟨e | a, st'⟩
      · rcases he : isRetryable e with _ | _
        · rw [withRetry_noretry clock fn h hfn he]
          exact hpres i st e st' hfn
        · rw [withRetry_retry clock fn h hfn he] at hres ⊢
          have hst' : st' = st := hpres i st e st' hfn
          subst hst'
          exact ih (i + 1) _ st' err hres
      · rw [withRetry_success clock fn h hfn] at hres ⊢
        exact absurd hres (by simp)

lemma withRetry_attempts_pos {i retries : Nat} {cs cs1 : CircuitState} {st : σ}
    (h : checkCircuitBreaker cs (clock i).checkNow = Except.ok cs1) :
    1 ≤ (withRetry clock fn i retries cs st).attempts := by
  rcases hfn : fn i st with ⟨e | a, st'⟩
  · cases retries with
    | zero =>
      rw [withRetry_stop clock fn h hfn]
      exact Nat.le_refl _
    | succ r =>
      rcases he : isRetryable e with _ | _
      · rw [withRetry_noretry clock fn h hfn he]
        exact Nat.le_refl _
      · rw [withRetry_retry clock fn h hfn he]
        show 1 ≤ 1 + (withRetry clock fn (i + 1) r
          ⟨cs1.consecutiveFailures + 1, (clock i).resolveNow⟩ st').attempts
        omega
  · rw [withRetry_success clock fn h hfn]

end Invariants

section BreakerLemmas

lemma checkCircuitBreaker_open (f t now : Nat) (hf : 5 ≤ f)
    (h2 : now - t < 60000) :
    checkCircuitBreaker ⟨f, t⟩ now =
      Except.error ((60000 - (now - t) + 999) / 1000) := by
  simp [checkCircuitBreaker, CIRCUIT_BREAKER_THRESHOLD, COOLDOWN_MS, hf, h2]

lemma checkCircuitBreaker_reset (f t now : Nat) (hf : 5 ≤ f)
    (h : 60000 ≤ now - t) :
    checkCircuitBreaker ⟨f, t⟩ now = Except.ok ⟨0, t⟩ := by
  simp [checkCircuitBreaker, CIRCUIT_BREAKER_THRESHOLD, COOLDOWN_MS, hf,
    Nat.not_lt.mpr h]

lemma withRetry_single_failure (e : JsError) (he : isRetryable e = false)
    (cs : CircuitState) (t : Nat) (hlt : cs.consecutiveFailures < 5) :
    withRetry (clockAt t)
        (fun _ (_ : Unit) => ((Except.error e : Except JsError Unit), ()))
        0 3 cs () =
      ⟨Except.error (CallError.thrown e),
        ⟨cs.consecutiveFailures + 1, t⟩, (), [], 1, 1⟩ := by
  rw [withRetry_noretry (clockAt t) _
    (checkCircuitBreaker_closed cs ((clockAt t 0).checkNow) hlt) rfl he]
  rfl

end BreakerLemmas

/-! ## Lemmas on the briefing attempt and cache -/

section BriefingLemmas

variable (remote : Nat → RemoteResult)
variable (parse : String → Except JsError FacilityBriefing)
variable (clock : Nat → StepClock)

lemma briefingAttempt_cases (i : Nat) (cache : Option CacheEntry) :
    (∃ e, briefingAttempt remote parse clock i cache =
      (Except.error e, cache)) ∨
    (∃ b, briefingAttempt remote parse clock i cache =
      (Except.ok b, some ⟨b, (clock i).resolveNow⟩)) := by
  unfold briefingAttempt
  split
  · exact Or.inl ⟨_, rfl⟩
  · split
    · exact Or.inl ⟨_, rfl⟩
    · split
      · exact Or.inl ⟨_, rfl⟩
      · exact Or.inr ⟨_, rfl⟩

lemma briefingAttempt_error_pres (i : Nat) (cache : Option CacheEntry)
    (e : JsError) (st1 : Option CacheEntry)
    (h : briefingAttempt remote parse clock i cache = (Except.error e, st1)) :
    st1 = cache := by
  rcases briefingAttempt_cases remote parse clock i cache with ⟨e', hc⟩ | ⟨b, hc⟩
  · have hpair := hc.symm.trans h
    simp only [Prod.mk.injEq] at hpair
    exact hpair.2.symm
  · have hpair := hc.symm.trans h
    simp at hpair

lemma briefingAttempt_ok_cache (i : Nat) (cache : Option CacheEntry)
    (b : FacilityBriefing) (st1 : Option CacheEntry)
    (h : briefingAttempt remote parse clock i cache = (Except.ok b, st1)) :
    st1 = some ⟨b, (clock i).resolveNow⟩ := by
  rcases briefingAttempt_cases remote parse clock i cache with ⟨e', hc⟩ | ⟨b', hc⟩
  · have hpair := hc.symm.trans h
    simp at hpair
  · have hpair := hc.symm.trans h
    simp only [Prod.mk.injEq, Except.ok.injEq] at hpair
    obtain ⟨hb, hst⟩ := hpair
    subst hb
    exact hst.symm

lemma briefing_run_ok_cache :
    ∀ (retries i : Nat) (cs : CircuitState) (cache : Option CacheEntry)
      (b : FacilityBriefing),
      (withRetry clock (briefingAttempt remote parse clock) i retries cs
        cache).result = Except.ok b →
      ∃ i', (withRetry clock (briefingAttempt remote parse clock) i retries
        cs cache).st = some ⟨b, (clock i').resolveNow⟩ := by
  intro retries
  induction retries with
  | zero =>
    intro i cs cache b hres
    rcases h : checkCircuitBreaker cs (clock i).checkNow with r | cs1
    · rw [withRetry_cooldown clock _ h] at hres
      exact absurd hres (by simp)
    · rcases hfn : briefingAttempt remote parse clock i cache
        with ⟨e | a, st'⟩
      · rw [withRetry_stop clock _ h hfn] at hres
        exact absurd hres (by simp [thrownRun])
      · rw [withRetry_success clock _ h hfn] at hres ⊢
        have hab : a = b := by simpa using hres
        subst hab
        exact ⟨i, briefingAttempt_ok_cache remote parse clock i cache a st' hfn⟩
  | succ r ih =>
    intro i cs cache b hres
    rcases h : checkCircuitBreaker cs (clock i).checkNow with rr | cs1
    · rw [withRetry_cooldown clock _ h] at hres
      exact absurd hres (by simp)
    · rcases hfn : briefingAttempt remote parse clock i cache
        with ⟨e | a, st'⟩
      · rcases he : isRetryable e with _ | _
        · rw [withRetry_noretry clock _ h hfn he] at hres
          exact absurd hres (by simp [thrownRun])
        · rw [withRetry_retry clock _ h hfn he] at hres ⊢
          have hst' : st' = cache :=
            briefingAttempt_error_pres remote parse clock i cache e st' hfn
          subst hst'
          exact ih (i + 1) _ st' b hres
      · rw [withRetry_success clock _ h hfn] at hres ⊢
        have hab : a = b := by simpa using hres
        subst hab
        exact ⟨i, briefingAttempt_ok_cache remote parse clock i cache a st' hfn⟩

lemma generateFacilityBriefing_none (rooms : List Room) (now : Nat)
    (cs : CircuitState) :
    generateFacilityBriefing rooms now clock remote parse cs none =
      withRetry clock (briefingAttempt remote parse clock) 0 3 cs none := rfl

lemma generateFacilityBriefing_hit (rooms : List Room) (now : Nat)
    (cs : CircuitState) (entry : CacheEntry)
    (h1 : now - entry.timestamp < CACHE_TTL)
    (h2 : hasCritical rooms = false ∨
      entry.data.status = BriefStatus.CRITICAL) :
    generateFacilityBriefing rooms now clock remote parse cs (some entry) =
      ⟨Except.ok entry.data, cs, some entry, [], 0, 0⟩ := by
  simp only [generateFacilityBriefing]
  rw [if_pos ⟨h1, h2⟩]

lemma generateFacilityBriefing_bypass (rooms : List Room) (now : Nat)
    (cs : CircuitState) (entry : CacheEntry)
    (hcond : ¬(now - entry.timestamp < CACHE_TTL ∧
      (hasCritical rooms = false ∨
        entry.data.status = BriefStatus.CRITICAL))) :
    generateFacilityBriefing rooms now clock remote parse cs (some entry) =
      withRetry clock (briefingAttempt remote parse clock) 0 3 cs
        (some entry) := by
  simp only [generateFacilityBriefing]
  rw [if_neg hcond]

end BriefingLemmas

/-! ## Lemmas on rounding and the Tetens exponential -/

section HardwareLemmas

lemma round1_add_int_div (j : ℤ) (c : ℝ) :
    round1 ((j : ℝ) / 10 + c) = ((j + round (10 * c) : ℤ) : ℝ) / 10 := by
  unfold round1
  have h : (10 : ℝ) * ((j : ℝ) / 10 + c) = (j : ℝ) + 10 * c := by ring
  rw [h, round_int_add]

lemma abs_round_le (y : ℝ) (m : ℤ) (h1 : -((m : ℝ) + 1 / 2) ≤ y)
    (h2 : y < (m : ℝ) + 1 / 2) : |round y| ≤ m := by
  rw [round_eq, abs_le]
  constructor
  · exact Int.le_floor.mpr (by push_cast; linarith)
  · have hlt : ⌊y + 1 / 2⌋ < m + 1 := Int.floor_lt.mpr (by push_cast; linarith)
    omega

lemma expy_lb : (1497869 : ℝ) / 1000000 ≤ Real.exp ((84623 : ℝ) / 209440) := by
  have h := Real.sum_le_exp_of_nonneg
    (x := (84623 : ℝ) / 209440) (by norm_num) 7
  refine le_trans ?_ h
  simp only [Finset.sum_range_succ, Finset.sum_range_zero]
  norm_num [Nat.factorial]

lemma expy_ub : Real.exp ((84623 : ℝ) / 209440) ≤ (1497871 : ℝ) / 1000000 := by
  have h := Real.exp_bound' (x := (84623 : ℝ) / 209440)
    (by norm_num) (by norm_num) (n := 7) (by norm_num)
  refine h.trans ?_
  simp only [Finset.sum_range_succ, Finset.sum_range_zero]
  norm_num [Nat.factorial]

lemma expx_bounds :
    (5033792 : ℝ) / 1000000 ≤ Real.exp ((84623 : ℝ) / 52360) ∧
    Real.exp ((84623 : ℝ) / 52360) ≤ (5033820 : ℝ) / 1000000 := by
  have harg : (84623 : ℝ) / 52360 = (4 : ℕ) * ((84623 : ℝ) / 209440) := by
    norm_num
  rw [harg, Real.exp_nat_mul]
  constructor
  · have h1 : ((1497869 : ℝ) / 1000000) ^ 4 ≤
        Real.exp ((84623 : ℝ) / 209440) ^ 4 :=
      pow_le_pow_left₀ (by norm_num) expy_lb 4
    have h2 : (5033792 : ℝ) / 1000000 ≤ ((1497869 : ℝ) / 1000000) ^ 4 := by
      norm_num
    linarith
  · have h1 : Real.exp ((84623 : ℝ) / 209440) ^ 4 ≤
        ((1497871 : ℝ) / 1000000) ^ 4 :=
      pow_le_pow_left₀ (Real.exp_pos _).le expy_ub 4
    have h2 : ((1497871 : ℝ) / 1000000) ^ 4 ≤ (5033820 : ℝ) / 1000000 := by
      norm_num
    linarith

lemma vpdOut_245 : vpdOut 24.5 45 = 1.69 := by
  unfold vpdOut round2 svp
  have harg : (17.27 : ℝ) * 24.5 / (24.5 + 237.3) = (84623 : ℝ) / 52360 := by
    norm_num
  rw [harg]
  have hb := expx_bounds
  have hprod : (100 : ℝ) *
      (0.61078 * Real.exp ((84623 : ℝ) / 52360) * (1 - 45 / 100)) =
      (335929 : ℝ) / 10000 * Real.exp ((84623 : ℝ) / 52360) := by ring
  rw [hprod]
  have hlo : (335929 : ℝ) / 10000 * ((5033792 : ℝ) / 1000000) ≤
      (335929 : ℝ) / 10000 * Real.exp ((84623 : ℝ) / 52360) :=
    mul_le_mul_of_nonneg_left hb.1 (by norm_num)
  have hhi : (335929 : ℝ) / 10000 * Real.exp ((84623 : ℝ) / 52360) ≤
      (335929 : ℝ) / 10000 * ((5033820 : ℝ) / 1000000) :=
    mul_le_mul_of_nonneg_left hb.2 (by norm_num)
  have hround : round ((335929 : ℝ) / 10000 *
      Real.exp ((84623 : ℝ) / 52360)) = 169 := by
    rw [round_eq]
    refine Int.floor_eq_iff.mpr ⟨?_, ?_⟩
    · have hval : (169 : ℝ) ≤
          (335929 : ℝ) / 10000 * ((5033792 : ℝ) / 1000000) + 1 / 2 := by
        norm_num
      push_cast
      linarith
    · have hval : (335929 : ℝ) / 10000 * ((5033820 : ℝ) / 1000000) + 1 / 2 <
          170 := by norm_num
      push_cast
      linarith
  rw [hround]
  have : ((169 : ℤ) : ℝ) / 100 = 1.69 := by norm_num
  rw [this, max_eq_right (by norm_num : (0 : ℝ) ≤ 1.69)]

end HardwareLemmas

/-! ## Claim C1: error behaviour of `analyzeLiveFrame` -/

/-- C1, counterexample.  The claim says `analyzeLiveFrame` never throws
and returns the default empty result when the single remote attempt
fails.  It is false: the attempt is not wrapped in any try/catch, so a
rejected transport call (here with message "network unreachable")
propagates its error instead of yielding the default overlay. -/
theorem C1_counterexample :
    analyzeLiveFrame (RemoteResult.err ⟨"network unreachable"⟩)
        (fun _ => Except.ok defaultOverlay) =
      Except.error ⟨"network unreachable"⟩ ∧
    analyzeLiveFrame (RemoteResult.err ⟨"network unreachable"⟩)
        (fun _ => Except.ok defaultOverlay) ≠
      Except.ok defaultOverlay := by
  constructor
  · rfl
  · decide

/-- C1, amended.  `analyzeLiveFrame` performs a single unretried
attempt.  It returns the default empty result
`{ status: SCANNING, detectedObjects: [], healthEstimate: 0 }` exactly
when the attempt resolves but its text payload is falsy; a rejected
attempt propagates the transport error to the caller, and a truthy
payload is handed to JSON.parse, whose error propagates when parsing
throws. -/
theorem C1_amended (parse : String → Except JsError ArOverlayData) :
    (∀ t, textFalsy t = true →
      analyzeLiveFrame (RemoteResult.response t) parse =
        Except.ok defaultOverlay) ∧
    (∀ e, analyzeLiveFrame (RemoteResult.err e) parse = Except.error e) ∧
    (∀ t, textFalsy t = false →
      analyzeLiveFrame (RemoteResult.response t) parse =
        parse (t.getD "")) := by
  refine ⟨fun t ht => ?_, fun e => rfl, fun t ht => ?_⟩
  · simp [analyzeLiveFrame, ht]
  · simp [analyzeLiveFrame, ht]

/-- C1, witness for the amended theorem at concrete inputs: a missing
payload yields the default overlay, a transport rejection propagates,
and a parse error on the payload "bad" propagates. -/
theorem C1_witness :
    analyzeLiveFrame (RemoteResult.response none)
        (fun s => Except.error ⟨s⟩) = Except.ok defaultOverlay ∧
    analyzeLiveFrame (RemoteResult.err ⟨"boom"⟩)
        (fun s => Except.error ⟨s⟩) = Except.error ⟨"boom"⟩ ∧
    analyzeLiveFrame (RemoteResult.response (some "bad"))
        (fun s => Except.error ⟨s⟩) = Except.error ⟨"bad"⟩ := by
  refine ⟨(C1_amended _).1 none rfl, (C1_amended _).2.1 ⟨"boom"⟩, ?_⟩
  have h := (C1_amended (fun s => Except.error ⟨s⟩)).2.2 (some "bad") rfl
  simpa using h

/-! ## Claim C2: when the circuit-breaker check runs -/

/-- C2, counterexample.  The claim says the breaker check runs exactly
once per logical call, before the first attempt, and is never
re-evaluated between internal retries.  It is false: starting from 4
consecutive failures, a single retryable (429) failure raises the
counter to 5 and the re-check performed by the recursive retry rejects
the same logical call from inside the retry loop — two breaker
evaluations, one transport attempt, and a cooldown error as the call's
result. -/
theorem C2_counterexample :
    (withRetry (clockAt 0) (alwaysErr "HTTP 429") 0 3 ⟨4, 0⟩ ()).checks = 2 ∧
    (withRetry (clockAt 0) (alwaysErr "HTTP 429") 0 3 ⟨4, 0⟩ ()).attempts = 1 ∧
    (withRetry (clockAt 0) (alwaysErr "HTTP 429") 0 3 ⟨4, 0⟩ ()).result =
      Except.error (CallError.cooldown 60) := by
  refine ⟨by decide, by decide, by decide⟩

/-- C2, amended.  The circuit-breaker check runs before the first
attempt and again before every internal retry of the same logical call:
in every run of `withRetry`, the number of `checkCircuitBreaker`
evaluations equals the number of transport attempts, plus one exactly
when the run ends rejected by the breaker. -/
theorem C2_amended (clock : Nat → StepClock)
    (fn : Nat → σ → Except JsError α × σ) (retries i : Nat)
    (cs : CircuitState) (st : σ) :
    (withRetry clock fn i retries cs st).checks =
      (withRetry clock fn i retries cs st).attempts +
        cooldownFlag (withRetry clock fn i retries cs st).result :=
  withRetry_checks_eq clock fn retries i cs st

/-! ## Claim C9: retry policy of `withRetry` -/

/-- C9.  For every logical call through the retry wrapper with the
default budget of 3 retries: at most 4 transport attempts happen; every
attempt that was followed by another (i.e. was retried) failed with an
error whose message signals 429 or 503; the delay before the Nth retry
is N * 1000 ms; and a first attempt failing with a non-retryable error
propagates that error immediately — one attempt, no backoff delay. -/
theorem C9_retry_policy (clock : Nat → StepClock)
    (oracle : Nat → Except JsError α) (cs : CircuitState) :
    (withRetry clock (fun j _ => (oracle j, ())) 0 3 cs ()).attempts ≤ 4 ∧
    (∀ k, k + 1 <
        (withRetry clock (fun j _ => (oracle j, ())) 0 3 cs ()).attempts →
      ∃ e, oracle k = Except.error e ∧ isRetryable e = true) ∧
    (∀ j, j <
        (withRetry clock (fun j' _ => (oracle j', ())) 0 3 cs
          ()).delays.length →
      (withRetry clock (fun j' _ => (oracle j', ())) 0 3 cs
          ()).delays.getD j 0 = (j + 1) * 1000) ∧
    (∀ cs1 e, checkCircuitBreaker cs (clock 0).checkNow = Except.ok cs1 →
      oracle 0 = Except.error e → isRetryable e = false →
      (withRetry clock (fun j _ => (oracle j, ())) 0 3 cs ()).result =
          Except.error (CallError.thrown e) ∧
        (withRetry clock (fun j _ => (oracle j, ())) 0 3 cs ()).attempts = 1 ∧
        (withRetry clock (fun j _ => (oracle j, ())) 0 3 cs ()).delays = []) := by
  refine ⟨withRetry_attempts_le clock _ 3 0 cs (), fun k hk => ?_, fun j hj => ?_,
    fun cs1 e hck ho he => ?_⟩
  · simpa using withRetry_retried_retryable clock oracle 3 0 cs k hk
  · have h := withRetry_delays_getD clock (fun j' _ => (oracle j', ())) 3 0 cs ()
      (by omega) j hj
    have harith : (4 - 3 + j) * 1000 = (j + 1) * 1000 := by omega
    rw [harith] at h
    exact h
  · have hfn : (fun j (_ : Unit) => (oracle j, ())) 0 () =
        ((Except.error e : Except JsError α), ()) := by simp [ho]
    rw [withRetry_noretry clock _ hck hfn he]
    exact ⟨rfl, rfl, rfl⟩

/-- C9, witness: a call whose first attempt fails with a fatal
(non-retryable) error propagates that error after exactly one attempt
with no backoff delay. -/
theorem C9_witness :
    (withRetry (clockAt 5)
        (fun _ (_ : Unit) =>
          ((Except.error ⟨"fatal"⟩ : Except JsError Unit), ()))
        0 3 ⟨0, 0⟩ ()).result = Except.error (CallError.thrown ⟨"fatal"⟩) ∧
    (withRetry (clockAt 5)
        (fun _ (_ : Unit) =>
          ((Except.error ⟨"fatal"⟩ : Except JsError Unit), ()))
        0 3 ⟨0, 0⟩ ()).attempts = 1 ∧
    (withRetry (clockAt 5)
        (fun _ (_ : Unit) =>
          ((Except.error ⟨"fatal"⟩ : Except JsError Unit), ()))
        0 3 ⟨0, 0⟩ ()).delays = [] :=
  (C9_retry_policy (clockAt 5) (fun _ => Except.error ⟨"fatal"⟩)
    ⟨0, 0⟩).2.2.2 ⟨0, 0⟩ ⟨"fatal"⟩ (by decide) rfl (by decide)

/-! ## Claim C6: circuit opens after 5 failures, closes after cooldown -/

/-- C6.  Each failing call (single non-retryable failing attempt) from a
closed circuit raises the consecutive-failure count by exactly 1 and
stamps the failure time, so 5 such calls from a fresh state leave the
state at ⟨5, t⟩.  A 6th call within 60,000 ms of the last failure is
rejected with the cooldown error carrying
`ceil((60000 - elapsed) / 1000)` seconds and zero transport attempts;
once at least 60,000 ms have elapsed, the check resets the count to 0
and the next call is dispatched to the transport (at least one
attempt). -/
theorem C6_circuit_breaker (e : JsError) (he : isRetryable e = false) :
    (∀ (cs : CircuitState) (t : Nat), cs.consecutiveFailures < 5 →
      withRetry (clockAt t)
          (fun _ (_ : Unit) => ((Except.error e : Except JsError Unit), ()))
          0 3 cs () =
        ⟨Except.error (CallError.thrown e),
          ⟨cs.consecutiveFailures + 1, t⟩, (), [], 1, 1⟩) ∧
    (∀ t0 t : Nat,
      (fun cs : CircuitState =>
        (withRetry (clockAt t)
          (fun _ (_ : Unit) => ((Except.error e : Except JsError Unit), ()))
          0 3 cs ()).cs)^[5] ⟨0, t0⟩ = ⟨5, t⟩) ∧
    (∀ {σ α : Type} (fn : Nat → σ → Except JsError α × σ) (st : σ)
        (t5 now : Nat), t5 ≤ now → now - t5 < 60000 →
      withRetry (clockAt now) fn 0 3 ⟨5, t5⟩ st =
        ⟨Except.error
            (CallError.cooldown ((60000 - (now - t5) + 999) / 1000)),
          ⟨5, t5⟩, st, [], 1, 0⟩) ∧
    (∀ {σ α : Type} (fn : Nat → σ → Except JsError α × σ) (st : σ)
        (t5 now : Nat), 60000 ≤ now - t5 →
      checkCircuitBreaker ⟨5, t5⟩ now = Except.ok ⟨0, t5⟩ ∧
        1 ≤ (withRetry (clockAt now) fn 0 3 ⟨5, t5⟩ st).attempts) := by
  have hstep : ∀ (cs : CircuitState) (t : Nat), cs.consecutiveFailures < 5 →
      withRetry (clockAt t)
          (fun _ (_ : Unit) => ((Except.error e : Except JsError Unit), ()))
          0 3 cs () =
        ⟨Except.error (CallError.thrown e),
          ⟨cs.consecutiveFailures + 1, t⟩, (), [], 1, 1⟩ :=
    fun cs t hlt => withRetry_single_failure e he cs t hlt
  refine ⟨hstep, fun t0 t => ?_, fun fn st t5 now h1 h2 => ?_,
    fun fn st t5 now h => ?_⟩
  · have h1 := congrArg RunResult.cs (hstep ⟨0, t0⟩ t (by norm_num))
    have h2 := congrArg RunResult.cs (hstep ⟨1, t⟩ t (by norm_num))
    have h3 := congrArg RunResult.cs (hstep ⟨2, t⟩ t (by norm_num))
    have h4 := congrArg RunResult.cs (hstep ⟨3, t⟩ t (by norm_num))
    have h5 := congrArg RunResult.cs (hstep ⟨4, t⟩ t (by norm_num))
    simp only [Function.iterate_succ_apply, Function.iterate_zero_apply]
    rw [h1, h2, h3, h4, h5]
  · rw [withRetry_cooldown (clockAt now) fn
      (checkCircuitBreaker_open 5 t5 now (Nat.le_refl 5) h2)]
  · refine ⟨checkCircuitBreaker_reset 5 t5 now (Nat.le_refl 5) h, ?_⟩
    exact withRetry_attempts_pos (clockAt now) fn
      (checkCircuitBreaker_reset 5 t5 now (Nat.le_refl 5) h)

/-- C6, witness: with a concrete fatal error, 5 failing calls at time 10
drive the state to ⟨5, 10⟩; a call at time 100 (90 ms later) is rejected
with a 60-second cooldown error and no transport attempt; a call at time
70,000 passes the check (count reset to 0) and reaches the transport. -/
theorem C6_witness :
    (fun cs : CircuitState =>
      (withRetry (clockAt 10)
        (fun _ (_ : Unit) =>
          ((Except.error ⟨"fatal"⟩ : Except JsError Unit), ()))
        0 3 cs ()).cs)^[5] ⟨0, 0⟩ = ⟨5, 10⟩ ∧
    withRetry (clockAt 100) alwaysOk 0 3 ⟨5, 10⟩ () =
      ⟨Except.error (CallError.cooldown 60), ⟨5, 10⟩, (), [], 1, 0⟩ ∧
    checkCircuitBreaker ⟨5, 10⟩ 70000 = Except.ok ⟨0, 10⟩ ∧
    1 ≤ (withRetry (clockAt 70000) alwaysOk 0 3 ⟨5, 10⟩ ()).attempts := by
  have h := C6_circuit_breaker ⟨"fatal"⟩ (by decide)
  refine ⟨h.2.1 0 10, ?_, h.2.2.2 alwaysOk () 10 70000 (by decide)⟩
  have hb := h.2.2.1 alwaysOk () 10 100 (by decide) (by decide)
  simpa using hb

/-! ## Claim C7: success resets the failure counter -/

/-- C7, counterexample.  The claim asserts that from every reachable
state, 4 failing calls, then 1 successful call, then 4 more failing
calls leave the circuit closed.  It is false when the later failing
calls carry retryable (429) errors: one such logical call performs 4
attempts and adds 4 to the counter, a second adds a 5th failure and is
rejected mid-call, and the two remaining failing calls are rejected by
the open breaker — after which the next call is rejected with a
cooldown error.  The trace below (all at time 0, from the initial state)
is exactly 4 failing calls, 1 successful call and 4 failing calls. -/
theorem C7_counterexample :
    withRetry (clockAt 0) (alwaysErr "boom") 0 3 ⟨0, 0⟩ () =
      ⟨Except.error (CallError.thrown ⟨"boom"⟩), ⟨1, 0⟩, (), [], 1, 1⟩ ∧
    withRetry (clockAt 0) (alwaysErr "boom") 0 3 ⟨1, 0⟩ () =
      ⟨Except.error (CallError.thrown ⟨"boom"⟩), ⟨2, 0⟩, (), [], 1, 1⟩ ∧
    withRetry (clockAt 0) (alwaysErr "boom") 0 3 ⟨2, 0⟩ () =
      ⟨Except.error (CallError.thrown ⟨"boom"⟩), ⟨3, 0⟩, (), [], 1, 1⟩ ∧
    withRetry (clockAt 0) (alwaysErr "boom") 0 3 ⟨3, 0⟩ () =
      ⟨Except.error (CallError.thrown ⟨"boom"⟩), ⟨4, 0⟩, (), [], 1, 1⟩ ∧
    withRetry (clockAt 0) alwaysOk 0 3 ⟨4, 0⟩ () =
      ⟨Except.ok (), ⟨0, 0⟩, (), [], 1, 1⟩ ∧
    ((withRetry (clockAt 0) (alwaysErr "HTTP 429") 0 3 ⟨0, 0⟩ ()).result =
        Except.error (CallError.thrown ⟨"HTTP 429"⟩) ∧
      (withRetry (clockAt 0) (alwaysErr "HTTP 429") 0 3 ⟨0, 0⟩ ()).cs =
        ⟨4, 0⟩) ∧
    ((withRetry (clockAt 0) (alwaysErr "HTTP 429") 0 3 ⟨4, 0⟩ ()).result =
        Except.error (CallError.cooldown 60) ∧
      (withRetry (clockAt 0) (alwaysErr "HTTP 429") 0 3 ⟨4, 0⟩ ()).cs =
        ⟨5, 0⟩) ∧
    withRetry (clockAt 0) (alwaysErr "HTTP 429") 0 3 ⟨5, 0⟩ () =
      ⟨Except.error (CallError.cooldown 60), ⟨5, 0⟩, (), [], 1, 0⟩ ∧
    withRetry (clockAt 0) (alwaysErr "HTTP 429") 0 3 ⟨5, 0⟩ () =
      ⟨Except.error (CallError.cooldown 60), ⟨5, 0⟩, (), [], 1, 0⟩ ∧
    (withRetry (clockAt 0) alwaysOk 0 3 ⟨5, 0⟩ ()).result =
      Except.error (CallError.cooldown 60) ∧
    (withRetry (clockAt 0) alwaysOk 0 3 ⟨5, 0⟩ ()).attempts = 0 := by
  decide

/-- C7, amended.  Every successful call resets the consecutive-failure
counter to 0 the moment its attempt resolves; consequently, after a
successful call, 4 failing calls whose errors are non-retryable (one
attempt each) raise the counter only to 4 and the next call is not
rejected by the breaker. -/
theorem C7_amended (e : JsError) (he : isRetryable e = false) :
    (∀ {σ α : Type} (clock : Nat → StepClock)
        (fn : Nat → σ → Except JsError α × σ) (retries i : Nat)
        (cs : CircuitState) (st : σ) (a : α),
      (withRetry clock fn i retries cs st).result = Except.ok a →
        (withRetry clock fn i retries cs st).cs.consecutiveFailures = 0) ∧
    (∀ l t : Nat,
      (fun c : CircuitState =>
        (withRetry (clockAt t)
          (fun _ (_ : Unit) => ((Except.error e : Except JsError Unit), ()))
          0 3 c ()).cs)^[4] ⟨0, l⟩ = ⟨4, t⟩) ∧
    (∀ t now : Nat,
      checkCircuitBreaker ⟨4, t⟩ now = Except.ok ⟨4, t⟩) := by
  refine ⟨fun clock fn retries i cs st a hres =>
      withRetry_success_resets clock fn retries i cs st a hres,
    fun l t => ?_, fun t now =>
      checkCircuitBreaker_closed ⟨4, t⟩ now
        (by norm_num [CIRCUIT_BREAKER_THRESHOLD])⟩
  have h1 := congrArg RunResult.cs
    (withRetry_single_failure e he ⟨0, l⟩ t (by norm_num))
  have h2 := congrArg RunResult.cs
    (withRetry_single_failure e he ⟨1, t⟩ t (by norm_num))
  have h3 := congrArg RunResult.cs
    (withRetry_single_failure e he ⟨2, t⟩ t (by norm_num))
  have h4 := congrArg RunResult.cs
    (withRetry_single_failure e he ⟨3, t⟩ t (by norm_num))
  simp only [Function.iterate_succ_apply, Function.iterate_zero_apply]
  rw [h1, h2, h3, h4]

/-- C7, witness: a concrete successful run ends with counter 0, the
4-fold fatal-failure iterate from a reset state reaches exactly 4, and
the breaker check passes there. -/
theorem C7_witness :
    (withRetry (clockAt 3) alwaysOk 0 3 ⟨4, 7⟩ ()).cs.consecutiveFailures =
      0 ∧
    (fun c : CircuitState =>
      (withRetry (clockAt 9)
        (fun _ (_ : Unit) =>
          ((Except.error ⟨"fatal"⟩ : Except JsError Unit), ()))
        0 3 c ()).cs)^[4] ⟨0, 7⟩ = ⟨4, 9⟩ ∧
    checkCircuitBreaker ⟨4, 9⟩ 123 = Except.ok ⟨4, 9⟩ := by
  have h := C7_amended ⟨"fatal"⟩ (by decide)
  exact ⟨h.1 (clockAt 3) alwaysOk 3 0 ⟨4, 7⟩ () () (by decide),
    h.2.1 7 9, h.2.2 9 123⟩

/-! ## Claim C8: briefing cache policy -/

/-- C8.  `generateFacilityBriefing` serves the cache exactly when the
slot is non-empty, younger than the 5-minute TTL, and either no input
room is CRITICAL or the cached briefing is itself CRITICAL; in that case
the identical cached object is returned with zero breaker checks and
zero transport attempts and no state changes.  In every other case
(safety bypass, expired TTL, empty slot) the call equals the
retry/circuit-breaker-wrapped remote call, and whenever that wrapped
call succeeds with briefing `b` the cache slot is overwritten with `b`
and the `Date.now()` of the successful attempt. -/
theorem C8_briefing_cache (rooms : List Room) (now : Nat)
    (clock : Nat → StepClock) (remote : Nat → RemoteResult)
    (parse : String → Except JsError FacilityBriefing)
    (cs : CircuitState) :
    (∀ entry : CacheEntry, now - entry.timestamp < CACHE_TTL →
      (hasCritical rooms = false ∨
        entry.data.status = BriefStatus.CRITICAL) →
      generateFacilityBriefing rooms now clock remote parse cs
          (some entry) =
        ⟨Except.ok entry.data, cs, some entry, [], 0, 0⟩) ∧
    (∀ entry : CacheEntry,
      ¬(now - entry.timestamp < CACHE_TTL ∧
        (hasCritical rooms = false ∨
          entry.data.status = BriefStatus.CRITICAL)) →
      generateFacilityBriefing rooms now clock remote parse cs
          (some entry) =
        withRetry clock (briefingAttempt remote parse clock) 0 3 cs
          (some entry)) ∧
    (generateFacilityBriefing rooms now clock remote parse cs none =
      withRetry clock (briefingAttempt remote parse clock) 0 3 cs none) ∧
    (∀ (cache : Option CacheEntry) (b : FacilityBriefing),
      (withRetry clock (briefingAttempt remote parse clock) 0 3 cs
        cache).result = Except.ok b →
      ∃ i, (withRetry clock (briefingAttempt remote parse clock) 0 3 cs
        cache).st = some ⟨b, (clock i).resolveNow⟩) := by
  refine ⟨fun entry h1 h2 =>
      generateFacilityBriefing_hit remote parse clock rooms now cs entry h1 h2,
    fun entry hcond =>
      generateFacilityBriefing_bypass remote parse clock rooms now cs entry
        hcond,
    generateFacilityBriefing_none remote parse clock rooms now cs,
    fun cache b hres =>
      briefing_run_ok_cache remote parse clock 3 0 cs cache b hres⟩

/-- C8, witness.  With a fresh OPTIMAL cache entry and a NOMINAL room
the cached object is served untouched; with a CRITICAL room the same
entry is bypassed and the call equals the wrapped remote call, whose
successful fresh result lands in the cache slot stamped with the
attempt's time 7. -/
theorem C8_witness :
    generateFacilityBriefing [roomNominal] 1000 (clockAt 7) remoteFresh
        parseFresh ⟨0, 0⟩ (some entryOptimal) =
      ⟨Except.ok entryOptimal.data, ⟨0, 0⟩, some entryOptimal, [], 0, 0⟩ ∧
    generateFacilityBriefing [roomCritical] 1000 (clockAt 7) remoteFresh
        parseFresh ⟨0, 0⟩ (some entryOptimal) =
      withRetry (clockAt 7) (briefingAttempt remoteFresh parseFresh
        (clockAt 7)) 0 3 ⟨0, 0⟩ (some entryOptimal) ∧
    ∃ i, (withRetry (clockAt 7) (briefingAttempt remoteFresh parseFresh
        (clockAt 7)) 0 3 ⟨0, 0⟩ (some entryOptimal)).st =
      some ⟨briefingFresh, (clockAt 7 i).resolveNow⟩ := by
  refine ⟨(C8_briefing_cache [roomNominal] 1000 (clockAt 7) remoteFresh
      parseFresh ⟨0, 0⟩).1 entryOptimal (by decide) (by decide),
    (C8_briefing_cache [roomCritical] 1000 (clockAt 7) remoteFresh
      parseFresh ⟨0, 0⟩).2.1 entryOptimal (by decide),
    (C8_briefing_cache [roomCritical] 1000 (clockAt 7) remoteFresh
      parseFresh ⟨0, 0⟩).2.2.2 (some entryOptimal) briefingFresh
      (by decide)⟩

/-! ## Claim C10: the cache slot survives every failing call -/

/-- C10.  Whenever `generateFacilityBriefing` ends in an error — breaker
rejection, transport error, empty response, or unparsable payload — the
briefing cache slot is exactly what it was before the call: the slot is
written only on a successfully parsed remote response. -/
theorem C10_cache_unchanged_on_error (rooms : List Room) (now : Nat)
    (clock : Nat → StepClock) (remote : Nat → RemoteResult)
    (parse : String → Except JsError FacilityBriefing)
    (cs : CircuitState) (cache : Option CacheEntry) (err : CallError)
    (h : (generateFacilityBriefing rooms now clock remote parse cs
      cache).result = Except.error err) :
    (generateFacilityBriefing rooms now clock remote parse cs cache).st =
      cache := by
  have hpres : ∀ (j : Nat) (st0 : Option CacheEntry) (e : JsError)
      (st1 : Option CacheEntry),
      briefingAttempt remote parse clock j st0 = (Except.error e, st1) →
        st1 = st0 :=
    fun j st0 e st1 hj =>
      briefingAttempt_error_pres remote parse clock j st0 e st1 hj
  rcases cache with _ | entry
  · rw [generateFacilityBriefing_none remote parse clock rooms now cs] at h ⊢
    exact withRetry_st_of_error clock _ hpres 3 0 cs none err h
  · by_cases hcond : now - entry.timestamp < CACHE_TTL ∧
      (hasCritical rooms = false ∨ entry.data.status = BriefStatus.CRITICAL)
    · rw [generateFacilityBriefing_hit remote parse clock rooms now cs entry
        hcond.1 hcond.2] at h
      exact absurd h (by simp)
    · rw [generateFacilityBriefing_bypass remote parse clock rooms now cs
        entry hcond] at h ⊢
      exact withRetry_st_of_error clock _ hpres 3 0 cs (some entry) err h

/-- C10, witness: a call whose transport always rejects fatally leaves
the empty cache slot empty, and also leaves a stale OPTIMAL entry
(bypassed because of a CRITICAL room) untouched. -/
theorem C10_witness :
    (generateFacilityBriefing [roomNominal] 1000 (clockAt 7)
      (fun _ => RemoteResult.err ⟨"down"⟩) parseFresh ⟨0, 0⟩ none).st =
      none ∧
    (generateFacilityBriefing [roomCritical] 1000 (clockAt 7)
      (fun _ => RemoteResult.err ⟨"down"⟩) parseFresh ⟨0, 0⟩
      (some entryOptimal)).st = some entryOptimal :=
  ⟨C10_cache_unchanged_on_error [roomNominal] 1000 (clockAt 7)
      (fun _ => RemoteResult.err ⟨"down"⟩) parseFresh ⟨0, 0⟩ none
      (CallError.thrown ⟨"down"⟩) (by decide),
    C10_cache_unchanged_on_error [roomCritical] 1000 (clockAt 7)
      (fun _ => RemoteResult.err ⟨"down"⟩) parseFresh ⟨0, 0⟩
      (some entryOptimal) (CallError.thrown ⟨"down"⟩) (by decide)⟩

/-! ## Claim C3: the VPD computation -/

/-- C3, counterexample.  The claim asserts the computed VPD at
`T = 24.5 °C, H = 45 %` is within 0.05 of 1.2 kPa.  It is false: the
Tetens formula as coded yields exactly 1.69 kPa after rounding, 0.49
away from 1.2 (1.2 is the mock seed value, which does not satisfy the
formula). -/
theorem C3_counterexample : ¬(|vpdOut 24.5 45 - 1.2| ≤ 0.05) := by
  intro h
  rw [vpdOut_245] at h
  have h2 := (abs_le.mp h).2
  norm_num at h2

/-- C3, amended.  For inputs `T = 24.5, H = 45` the emitted VPD is
exactly 1.69 kPa (`round(0.61078 * exp(17.27·T/(T+237.3)) * (1 - H/100),
2)`), which the simulator reproduces from the mock reading when both
random draws are 0.5 (zero drift); and for every temperature and every
humidity the emitted VPD is never negative (`Math.max(0, ·)` floor). -/
theorem C3_amended :
    vpdOut 24.5 45 = 1.69 ∧
    (∀ (r3 : ℝ) (now : Nat),
      (simulateDrift reading0 0.5 0.5 r3 now).vpd = 1.69) ∧
    (∀ (current : SensorReading) (r1 r2 r3 : ℝ) (now : Nat),
      0 ≤ (simulateDrift current r1 r2 r3 now).vpd) := by
  refine ⟨vpdOut_245, fun r3 now => ?_, fun current r1 r2 r3 now => ?_⟩
  · have h : (simulateDrift reading0 0.5 0.5 r3 now).vpd =
        vpdOut (round1 (reading0.temp + (0.5 - 0.5) * FLUX_TEMP))
          (round1 (reading0.humidity + (0.5 - 0.5) * FLUX_HUMIDITY)) := rfl
    rw [h]
    have ht : round1 (reading0.temp + (0.5 - 0.5) * FLUX_TEMP) = 24.5 := by
      unfold round1
      have e1 : (10 : ℝ) * (reading0.temp + (0.5 - 0.5) * FLUX_TEMP) =
          ((245 : ℤ) : ℝ) := by
        show (10 : ℝ) * ((24.5 : ℝ) + (0.5 - 0.5) * FLUX_TEMP) =
          ((245 : ℤ) : ℝ)
        push_cast
        ring
      rw [e1, round_intCast]
      norm_num
    have hh : round1 (reading0.humidity + (0.5 - 0.5) * FLUX_HUMIDITY) =
        45 := by
      unfold round1
      have e1 : (10 : ℝ) * (reading0.humidity + (0.5 - 0.5) * FLUX_HUMIDITY) =
          ((450 : ℤ) : ℝ) := by
        show (10 : ℝ) * ((45 : ℝ) + (0.5 - 0.5) * FLUX_HUMIDITY) =
          ((450 : ℤ) : ℝ)
        push_cast
        ring
      rw [e1, round_intCast]
      norm_num
    rw [ht, hh]
    exact vpdOut_245
  · show 0 ≤ vpdOut (round1 (current.temp + (r1 - 0.5) * FLUX_TEMP))
      (round1 (current.humidity + (r2 - 0.5) * FLUX_HUMIDITY))
    exact le_max_left _ _

/-! ## Claim C4: CO₂ drift -/

/-- C4.  On every tick the emitted CO₂ equals the previous CO₂ plus the
integer `⌊r·10⌋ - 5` with no further bound applied; for every value the
random source can produce this increment lies in [-5, 4] and is
obtainable as `round(u)` for some `u` in [-5, +5]. -/
theorem C4_co2_drift (current : SensorReading) (r1 r2 r3 : ℝ) (now : Nat)
    (h0 : 0 ≤ r3) (h1 : r3 < 1) :
    (simulateDrift current r1 r2 r3 now).co2 =
      current.co2 + (⌊r3 * 10⌋ - 5) ∧
    -5 ≤ ⌊r3 * 10⌋ - 5 ∧ ⌊r3 * 10⌋ - 5 ≤ 4 ∧
    ∃ u : ℝ, -5 ≤ u ∧ u ≤ 5 ∧ ⌊r3 * 10⌋ - 5 = round u := by
  have hge : (0 : ℤ) ≤ ⌊r3 * 10⌋ :=
    Int.le_floor.mpr (by push_cast; nlinarith)
  have hlt : ⌊r3 * 10⌋ < 10 :=
    Int.floor_lt.mpr (by push_cast; linarith)
  refine ⟨rfl, by omega, by omega,
    ((⌊r3 * 10⌋ - 5 : ℤ) : ℝ), ?_, ?_, (round_intCast _).symm⟩
  · have h : (-5 : ℤ) ≤ ⌊r3 * 10⌋ - 5 := by omega
    exact_mod_cast h
  · have h : (⌊r3 * 10⌋ - 5 : ℤ) ≤ 5 := by omega
    exact_mod_cast h

/-- C4, witness at the random draw 1/2: the increment is
`⌊5⌋ - 5 = 0`, within the claimed range. -/
theorem C4_witness :
    (simulateDrift reading0 0 0 (1 / 2) 3).co2 =
      reading0.co2 + (⌊(1 / 2 : ℝ) * 10⌋ - 5) ∧
    -5 ≤ ⌊(1 / 2 : ℝ) * 10⌋ - 5 ∧ ⌊(1 / 2 : ℝ) * 10⌋ - 5 ≤ 4 ∧
    ∃ u : ℝ, -5 ≤ u ∧ u ≤ 5 ∧ ⌊(1 / 2 : ℝ) * 10⌋ - 5 = round u :=
  C4_co2_drift reading0 0 0 (1 / 2) 3 (by norm_num) (by norm_num)

/-! ## Claim C5: per-tick drift bounds -/

/-- C5.  For every previous reading held by the simulator (whose
temperature and humidity are 1-decimal values — as every seeded mock
reading and, by the last two conjuncts, every emitted reading is) and
every pair of values the random source can produce, the published
rounded temperature moves by at most 0.25 and the published rounded
humidity by at most 0.75. -/
theorem C5_drift_bounds (current : SensorReading) (r1 r2 r3 : ℝ) (now : Nat)
    (jT jH : ℤ) (hT : current.temp = (jT : ℝ) / 10)
    (hH : current.humidity = (jH : ℝ) / 10)
    (h10 : 0 ≤ r1) (h11 : r1 < 1) (h20 : 0 ≤ r2) (h21 : r2 < 1) :
    |(simulateDrift current r1 r2 r3 now).temp - current.temp| ≤ 0.25 ∧
    |(simulateDrift current r1 r2 r3 now).humidity - current.humidity| ≤
      0.75 ∧
    (∃ j : ℤ, (simulateDrift current r1 r2 r3 now).temp = (j : ℝ) / 10) ∧
    (∃ j : ℤ, (simulateDrift current r1 r2 r3 now).humidity = (j : ℝ) / 10)
    := by
  have htemp : (simulateDrift current r1 r2 r3 now).temp =
      round1 (current.temp + (r1 - 0.5) * FLUX_TEMP) := rfl
  have hhum : (simulateDrift current r1 r2 r3 now).humidity =
      round1 (current.humidity + (r2 - 0.5) * FLUX_HUMIDITY) := rfl
  have hft : FLUX_TEMP = 0.5 := rfl
  have hfh : FLUX_HUMIDITY = 1.5 := rfl
  have hcT1 : -(1 / 4 : ℝ) ≤ (r1 - 0.5) * FLUX_TEMP := by
    rw [hft]; nlinarith
  have hcT2 : (r1 - 0.5) * FLUX_TEMP < 1 / 4 := by
    rw [hft]; nlinarith
  have hcH1 : -(3 / 4 : ℝ) ≤ (r2 - 0.5) * FLUX_HUMIDITY := by
    rw [hfh]; nlinarith
  have hcH2 : (r2 - 0.5) * FLUX_HUMIDITY < 3 / 4 := by
    rw [hfh]; nlinarith
  have hkT : |round ((10 : ℝ) * ((r1 - 0.5) * FLUX_TEMP))| ≤ 2 :=
    abs_round_le _ 2 (by push_cast; linarith) (by push_cast; linarith)
  have hkH : |round ((10 : ℝ) * ((r2 - 0.5) * FLUX_HUMIDITY))| ≤ 7 :=
    abs_round_le _ 7 (by push_cast; linarith) (by push_cast; linarith)
  refine ⟨?_, ?_, ?_, ?_⟩
  · rw [htemp, hT, round1_add_int_div]
    have key : ((jT + round ((10 : ℝ) * ((r1 - 0.5) * FLUX_TEMP)) : ℤ) : ℝ) /
        10 - (jT : ℝ) / 10 =
        ((round ((10 : ℝ) * ((r1 - 0.5) * FLUX_TEMP)) : ℤ) : ℝ) / 10 := by
      push_cast
      ring
    rw [key, abs_div]
    have h10r : |(10 : ℝ)| = 10 := by norm_num
    rw [h10r, div_le_iff₀ (by norm_num : (0 : ℝ) < 10)]
    have hc : |((round ((10 : ℝ) * ((r1 - 0.5) * FLUX_TEMP)) : ℤ) : ℝ)| ≤
        2 := by exact_mod_cast hkT
    linarith
  · rw [hhum, hH, round1_add_int_div]
    have key : ((jH + round ((10 : ℝ) * ((r2 - 0.5) * FLUX_HUMIDITY)) : ℤ) :
        ℝ) / 10 - (jH : ℝ) / 10 =
        ((round ((10 : ℝ) * ((r2 - 0.5) * FLUX_HUMIDITY)) : ℤ) : ℝ) / 10 := by
      push_cast
      ring
    rw [key, abs_div]
    have h10r : |(10 : ℝ)| = 10 := by norm_num
    rw [h10r, div_le_iff₀ (by norm_num : (0 : ℝ) < 10)]
    have hc : |((round ((10 : ℝ) * ((r2 - 0.5) * FLUX_HUMIDITY)) : ℤ) : ℝ)| ≤
        7 := by exact_mod_cast hkH
    linarith
  · rw [htemp, hT, round1_add_int_div]
    exact ⟨jT + round ((10 : ℝ) * ((r1 - 0.5) * FLUX_TEMP)), rfl⟩
  · rw [hhum, hH, round1_add_int_div]
    exact ⟨jH + round ((10 : ℝ) * ((r2 - 0.5) * FLUX_HUMIDITY)), rfl⟩

/-- C5, witness at the extreme draw `r = 0` (largest downward step) from
the mock reading 24.5 °C / 45 %. -/
theorem C5_witness :
    |(simulateDrift reading0 0 0 0 0).temp - reading0.temp| ≤ 0.25 ∧
    |(simulateDrift reading0 0 0 0 0).humidity - reading0.humidity| ≤
      0.75 ∧
    (∃ j : ℤ, (simulateDrift reading0 0 0 0 0).temp = (j : ℝ) / 10) ∧
    (∃ j : ℤ, (simulateDrift reading0 0 0 0 0).humidity = (j : ℝ) / 10) :=
  C5_drift_bounds reading0 0 0 0 0 245 450
    (by show (24.5 : ℝ) = ((245 : ℤ) : ℝ) / 10; push_cast; norm_num)
    (by show (45 : ℝ) = ((450 : ℤ) : ℝ) / 10; push_cast; norm_num)
    (by norm_num) (by norm_num) (by norm_num) (by norm_num)

end CCP2
